import Mathlib

/-!
Verification development for the go-trader recommendation lifecycle and
execution engine.

The definitions below are a shallow embedding of the Go source:
 * `internal/api/server.go` — REST handlers `acceptRecommendation` and
   `aiGenerateRecommendation`, the in-memory `recs` fallback map, and
   `isUUIDLike`;
 * `internal/database/postgres.go` — `audit`, `CreateTrade`,
   `MarkRecommendationExecuted`, `MarkAIRecommendationExecuted`,
   `ListRecommendations` (its `deleted_at IS NULL` filter matters for
   resolution), `CreateAIRecommendation`;
 * `internal/ai/claude.go` — `claudeClientImpl.GenerateRecommendation`;
 * `internal/ai/impl.go` — `serviceImpl.GenerateRecommendation` wired with
   the fetcher closures from `main.go`;
 * the SQL schema in `scripts/migrations` (UUID-typed columns
   `recommendations.trade_id`, `ai_recommendations.executed_trade_id`,
   `audit_logs.entity_id`, and the foreign keys `REFERENCES trades(id)`),
   which decides whether a write that binds a text value to a UUID column
   can succeed.

Go float64 arithmetic is modelled with exact rationals (ℚ); machine
rounding is not modelled.  Go `int64` values are modelled with ℤ and
timestamps with ℕ.  External collaborators (the OANDA broker, the price
feed, the Brave news client, the account state, fresh UUID generation)
are oracle parameters of the embedded operations.
-/

/-! ## Numeric helpers -/

/-- Go `math.Round`: round half away from zero (server.go line 494). -/
def goRound (q : ℚ) : ℤ := if 0 ≤ q then ⌊q + 1 / 2⌋ else ⌈q - 1 / 2⌉

/-- Constant `pipValuePerUnit := 10.0 / 100000.0` (server.go line 463). -/
def pipValuePerUnit : ℚ := 10 / 100000

/-- Go `strings.ToUpper` restricted to ASCII case mapping (the direction and
risk-level strings compared against are ASCII literals). -/
def goUpper (s : String) : String := ⟨s.toList.map Char.toUpper⟩

/-- Go `strings.ToLower` restricted to ASCII case mapping. -/
def goLower (s : String) : String := ⟨s.toList.map Char.toLower⟩

/-! ## Pip unit and stop distance (server.go lines 432-443 and 478-484) -/

/-- Go `strings.Contains(rec.Instrument, "JPY")`: substring containment. -/
def containsJPY (s : String) : Bool := decide ("JPY".toList <:+: s.toList)

/-- Pip unit used by the risk/bracket computation: `0.01` when the
instrument name contains `"JPY"`, else `0.0001` (server.go 432-436). -/
def pipFor (instrument : String) : ℚ :=
  if containsJPY instrument then 1 / 100 else 1 / 10000

/-- Comparison definition following the spec sentence, not the source:
pip unit is `0.01` exactly when the instrument's quote currency is JPY,
where the quote currency of a `BASE_QUOTE`-named pair is the suffix after
the underscore, i.e. the name ends in `"_JPY"`. -/
def pipByQuoteCurrency (instrument : String) : ℚ :=
  if decide ("_JPY".toList <:+ instrument.toList) then 1 / 100 else 1 / 10000

/-- Stop distance in pips from the risk level: low → 30, high → 10,
anything else → 20 (server.go 437-443). -/
def distPipsFor (riskLevel : String) : ℚ :=
  if goLower riskLevel = "low" then 30
  else if goLower riskLevel = "high" then 10
  else 20

/-! ## Stop-loss / take-profit enrichment (server.go lines 427-456) -/

/-- The bracket assignment given a positive mid price: for BUY,
`sl = mid - distPips*pip`, `tp = mid + rr*distPips*pip` with `rr = 2`;
for any other direction the signs flip (server.go 444-453). -/
def computeSLTP (direction : String) (mid distPips pip : ℚ) : ℚ × ℚ :=
  let rr : ℚ := 2
  if goUpper direction = "BUY" then
    (mid - distPips * pip, mid + rr * distPips * pip)
  else
    (mid + distPips * pip, mid - rr * distPips * pip)

/-- The enrichment step: brackets are attached only when a positive mid
price was resolved (server.go 432: `if mid > 0`); otherwise the draft's
stop-loss/take-profit stay unset. -/
def enrichStopTakeProfit (instrument direction riskLevel : String) (mid : ℚ) :
    Option (ℚ × ℚ) :=
  if 0 < mid then
    some (computeSLTP direction mid (distPipsFor riskLevel) (pipFor instrument))
  else none

/-! ## Position sizing (server.go lines 458-496) -/

/-- Inputs of the position-sizing step of `aiGenerateRecommendation`.
`priceMid` is the mid price the sizing branch re-fetches (none when the
price fetch fails or returns no usable quotes), `nav` is the result of
`GetAccount` (none on error), `draftUnits` is the unit count already on
the draft recommendation. -/
structure SizingInputs where
  reqUnits : ℤ
  riskPercent : ℚ
  stopLossPips : ℚ
  recStopLoss : Option ℚ
  instrument : String
  priceMid : Option ℚ
  nav : Option ℚ
  draftUnits : ℤ
deriving DecidableEq

/-- The inner computation of server.go 489-494: `riskUSD = NAV*riskPercent`,
`units = riskUSD/(slPips*pipValuePerUnit)`, floored at 1, then
`int64(math.Round(units))`. -/
def riskUnits (nav riskPercent slPips : ℚ) : ℤ :=
  let riskUSD := nav * riskPercent
  let units := riskUSD / (slPips * pipValuePerUnit)
  goRound (if units < 1 then 1 else units)

/-- Stop-distance resolution of server.go 465-485: the request's
`stop_loss_pips` when positive, else (when the draft has a stop-loss and a
positive mid price is available) `|mid - stopLoss| / pip`, else `0`. -/
def resolveStopPips (s : SizingInputs) : ℚ :=
  if 0 < s.stopLossPips then s.stopLossPips
  else
    match s.recStopLoss with
    | some sl =>
      match s.priceMid with
      | some mid => if 0 < mid then |mid - sl| / pipFor s.instrument else 0
      | none => 0
    | none => 0

/-- The position-sizing step of server.go 459-496: explicit positive
request units win; else, with a positive risk percent and either a
positive requested stop distance or a draft stop-loss, the size is
`riskUnits` provided the account fetch succeeded and the resolved stop
distance is positive; in every other case the draft's units stand. -/
def applyPositionSizing (s : SizingInputs) : ℤ :=
  if 0 < s.reqUnits then s.reqUnits
  else if (0 < s.riskPercent ∧ 0 < s.stopLossPips) ∨
          (0 < s.riskPercent ∧ s.recStopLoss.isSome) then
    let slPips := resolveStopPips s
    match s.nav with
    | some nav =>
      if 0 < slPips then riskUnits nav s.riskPercent slPips else s.draftUnits
    | none => s.draftUnits
  else s.draftUnits

/-! ## UUID shape validation (server.go lines 588-605) -/

/-- A hexadecimal ASCII digit as accepted by `isUUIDLike`. -/
def isHexChar (c : Char) : Bool :=
  (decide ('0' ≤ c) && decide (c ≤ '9')) ||
  (decide ('a' ≤ c) && decide (c ≤ 'f')) ||
  (decide ('A' ≤ c) && decide (c ≤ 'F'))

/-- Function `isUUIDLike` (server.go 588-605): 36 characters, a dash at positions 8, 13, 18, 23, hex
digits elsewhere.  (Go ranges over runes with byte indices; both models
reject every string containing a non-ASCII rune, and agree on ASCII
strings, so character positions are a faithful translation.) -/
def isUUIDLike (s : String) : Bool :=
  s.toList.length == 36 &&
  s.toList.enum.all fun p =>
    if p.1 == 8 || p.1 == 13 || p.1 == 18 || p.1 == 23 then p.2 == '-'
    else isHexChar p.2

/-- The stored id of a created AI recommendation: the handler blanks a
non-UUID-shaped caller id (server.go 507-511) and the insert replaces a
blank id by a freshly generated UUID via
`COALESCE(NULLIF($1,'')::uuid, gen_random_uuid())` (postgres.go 214-217).
`freshUUID` stands for the `gen_random_uuid()` draw. -/
def storedAIRecID (suppliedID freshUUID : String) : String :=
  let safeID := if isUUIDLike suppliedID then suppliedID else ""
  if safeID = "" then freshUUID else safeID

/-! ## Database state (pkg/models, scripts/migrations) -/

/-- A row of the legacy `recommendations` table (`models.Recommendation`
plus the `deleted_at` column used by `ListRecommendations` and
`SoftDeleteRecommendation`). -/
structure LegacyRec where
  id : String
  instrument : String
  direction : String
  units : ℚ
  rationale : Option String
  confidenceScore : Option ℚ
  status : String
  tradeID : Option String
  createdAt : ℕ
  executedAt : Option ℕ
  deletedAt : Option ℕ
deriving DecidableEq

/-- A row of the `ai_recommendations` table (`models.AIRecommendation`;
the schema has no `deleted_at` column and none of its queries filter on
one).  The opaque context blobs are not modelled. -/
structure AIRec where
  id : String
  instrument : String
  direction : String
  units : ℚ
  confidence : ℚ
  rationale : String
  stopLoss : Option ℚ
  takeProfit : Option ℚ
  status : String
  executedTradeID : Option String
  createdAt : ℕ
  updatedAt : ℕ
deriving DecidableEq

/-- A row of the `trades` table (`models.Trade`, fields the accept path
writes). -/
structure TradeRow where
  id : String
  instrument : String
  direction : String
  units : ℚ
  entryPrice : Option ℚ
  status : String
  oandaTradeID : Option String
deriving DecidableEq

/-- A row of the `audit_logs` table (entity, entity id, action; the JSONB
detail payload is not modelled). -/
structure AuditRow where
  entity : String
  entityID : String
  action : String
deriving DecidableEq

/-- The four tables the recommendation lifecycle touches. -/
structure DBState where
  recommendations : List LegacyRec
  aiRecs : List AIRec
  trades : List TradeRow
  audits : List AuditRow
deriving DecidableEq

/-- An entry of the global in-memory fallback map `recs` in server.go
line 229 (the `recommendation` struct of server.go 220-227). -/
structure MemRec where
  id : String
  instrument : String
  direction : String
  units : ℚ
  rationale : String
  createdAt : ℕ
deriving DecidableEq

/-- The state `acceptRecommendation` reads and writes: the configured
database plus the in-memory map. -/
structure ServerState where
  db : DBState
  mem : List MemRec
deriving DecidableEq

/-- Whether a Go string bound to a UUID-typed column is accepted: the
values that reach these columns are either `gen_random_uuid()` outputs in
canonical 8-4-4-4-12 form (accepted) or non-UUID text such as `""` or an
OANDA transaction id like `"6410"` (rejected by the `uuid` input parser).
-/
def uuidCastOK (s : String) : Bool := isUUIDLike s

/-- Method `Postgres.audit` (postgres.go 22-25): one INSERT into `audit_logs`.
`entity_id` is a UUID column, so the insert succeeds only when the entity
id is UUID-shaped; the caller always discards the error, so a failed
insert simply leaves the table unchanged. -/
def audit (db : DBState) (entity entityID action : String) : DBState :=
  if uuidCastOK entityID then
    { db with audits := db.audits ++ [⟨entity, entityID, action⟩] }
  else db

/-- Method `Postgres.MarkRecommendationExecuted` (postgres.go 97-103):
`UPDATE recommendations SET status='EXECUTED', trade_id=$2,
executed_at=NOW() WHERE id=$1`, then an `EXECUTE` audit row if the update
succeeded.  The update fails when the trade id does not parse as a uuid
(`trade_id` is UUID-typed), or when a row is actually updated and the
value violates `trade_id UUID REFERENCES trades(id)`.  There is no
condition on the row's current status or `deleted_at`.  Returns the new
state and whether the update succeeded. -/
def MarkRecommendationExecuted (db : DBState) (id tradeID : String) (now : ℕ) :
    DBState × Bool :=
  if !uuidCastOK tradeID then (db, false)
  else if db.recommendations.any (fun r => r.id == id) &&
          !(db.trades.any (fun t => t.id == tradeID)) then (db, false)
  else
    (audit
      { db with
        recommendations := db.recommendations.map fun r =>
          if r.id = id then
            { r with status := "EXECUTED", tradeID := some tradeID,
                     executedAt := some now }
          else r }
      "recommendations" id "EXECUTE", true)

/-- Method `Postgres.MarkAIRecommendationExecuted` (postgres.go 231-238): the
same update on `ai_recommendations` (`status`, `executed_trade_id`,
`updated_at`), with the same UUID cast and `REFERENCES trades(id)`
conditions on the trade id and no condition on the row's current state.
-/
def MarkAIRecommendationExecuted (db : DBState) (id tradeID : String) (now : ℕ) :
    DBState × Bool :=
  if !uuidCastOK tradeID then (db, false)
  else if db.aiRecs.any (fun r => r.id == id) &&
          !(db.trades.any (fun t => t.id == tradeID)) then (db, false)
  else
    (audit
      { db with
        aiRecs := db.aiRecs.map fun r =>
          if r.id = id then
            { r with status := "EXECUTED", executedTradeID := some tradeID,
                     updatedAt := now }
          else r }
      "ai_recommendations" id "EXECUTE", true)

/-- Method `Postgres.CreateTrade` (postgres.go 106-114): the INSERT replaces an
empty id by `gen_random_uuid()` (modelled by the `genTradeID` oracle);
the subsequent `CREATE` audit row uses the caller's struct id `t.id` —
not the generated one — and its error is discarded. -/
def CreateTrade (db : DBState) (t : TradeRow) (genTradeID : String) : DBState :=
  let row := { t with id := if t.id = "" then genTradeID else t.id }
  audit { db with trades := db.trades ++ [row] } "trades" t.id "CREATE"

/-! ## Recommendation resolution and accept (server.go lines 283-384) -/

/-- The conversion of a legacy DB row into the handler's in-memory
`recommendation` value (server.go 294-299): a nil rationale becomes `""`.
-/
def legacyToMem (item : LegacyRec) : MemRec :=
  { id := item.id, instrument := item.instrument, direction := item.direction,
    units := item.units, rationale := item.rationale.getD "",
    createdAt := item.createdAt }

/-- The conversion of an AI DB row (server.go 313-315). -/
def aiToMem (item : AIRec) : MemRec :=
  { id := item.id, instrument := item.instrument, direction := item.direction,
    units := item.units, rationale := item.rationale,
    createdAt := item.createdAt }

/-- Insertion into a list sorted descending by `key`: the new element is
placed before the first strictly smaller key, after equal keys (SQL
leaves the relative order of `created_at` ties unspecified; the model
fixes this one). -/
def insertDescBy (key : α → ℕ) (r : α) : List α → List α
  | [] => [r]
  | x :: xs =>
    if key x < key r then r :: x :: xs else x :: insertDescBy key r xs

/-- Sort descending by `key` (insertion sort, so that it reduces inside
the kernel on the concrete states below). -/
def sortDescBy (key : α → ℕ) : List α → List α
  | [] => []
  | x :: xs => insertDescBy key x (sortDescBy key xs)

/-- Method `Postgres.ListRecommendations` (postgres.go 80-95):
`SELECT ... WHERE deleted_at IS NULL ORDER BY created_at DESC LIMIT 200`
— only the 200 newest non-soft-deleted rows are returned. -/
def ListRecommendations (db : DBState) : List LegacyRec :=
  (sortDescBy (fun r => r.createdAt)
    (db.recommendations.filter fun r => r.deletedAt == none)).take 200

/-- Method `Postgres.ListAIRecommendations` called with limit 200
(server.go 309, postgres.go 240-244): `SELECT ... ORDER BY created_at
DESC LIMIT 200`, no soft-delete filter. -/
def ListAIRecommendations (db : DBState) : List AIRec :=
  (sortDescBy (fun r => r.createdAt) db.aiRecs).take 200

/-- Resolution order of `acceptRecommendation` (server.go 288-330): the
legacy rows as returned by `ListRecommendations` (soft-deleted rows
filtered out, 200-newest window), then the AI rows as returned by
`ListAIRecommendations` (200-newest window), then the global in-memory
map; the first match wins.  An AI match carries its
stop-loss/take-profit; the other two sources carry none.  The Bool is
the handler's `isAI` flag. -/
def resolveRecommendation (st : ServerState) (id : String) :
    Option (MemRec × Bool × Option ℚ × Option ℚ) :=
  match (ListRecommendations st.db).find? (fun r => r.id == id) with
  | some item => some (legacyToMem item, false, none, none)
  | none =>
    match (ListAIRecommendations st.db).find? (fun r => r.id == id) with
    | some item => some (aiToMem item, true, item.stopLoss, item.takeProfit)
    | none =>
      match st.mem.find? (fun m => m.id == id) with
      | some m => some (m, false, none, none)
      | none => none

/-- The accept operation's error outcomes: 404 for an unresolved id, 500
carrying the broker's error text verbatim for a rejected order. -/
inductive AcceptError where
  | notFound : AcceptError
  | brokerRejected : String → AcceptError
deriving DecidableEq

/-- Handler `Server.acceptRecommendation` (server.go 283-384) with the external
world as oracles: `brokerResult` is the outcome of the market-order
submission (`ok orderID` carries `resp.OrderCreateTransaction.ID`),
`prices` the bid/ask pair used for the entry price (none when the fetch
fails or returns no quotes), `genTradeID` the uuid the trade INSERT
generates, `now` the write timestamp.  On broker success the handler
marks the resolved form executed (error discarded), computes the entry
price as the mid of positive bid/ask (else 0), and creates the trade row
(error discarded). -/
def acceptRecommendation (st : ServerState) (id : String)
    (brokerResult : Except String String) (prices : Option (ℚ × ℚ))
    (genTradeID : String) (now : ℕ) :
    ServerState × Except AcceptError (MemRec × String) :=
  match resolveRecommendation st id with
  | none => (st, .error .notFound)
  | some (r, isAI, _sl, _tp) =>
    let units := if goUpper r.direction = "SELL" then -r.units else r.units
    match brokerResult with
    | .error e => (st, .error (.brokerRejected e))
    | .ok orderID =>
      let db1 := if isAI then (MarkAIRecommendationExecuted st.db id orderID now).1
                 else (MarkRecommendationExecuted st.db id orderID now).1
      let entry : ℚ :=
        match prices with
        | some (b, a) => if 0 < b ∧ 0 < a then (b + a) / 2 else 0
        | none => 0
      let tr : TradeRow :=
        { id := "", instrument := r.instrument,
          direction := if 0 ≤ units then "BUY" else "SELL",
          units := units, entryPrice := some entry, status := "OPEN",
          oandaTradeID := some orderID }
      ({ st with db := CreateTrade db1 tr genTradeID }, .ok (r, orderID))

/-! ## AI drafting (internal/ai: service.go types, claude.go, impl.go)
    wired with the fetcher closures of main.go -/

/-- Struct `ai.NewsItem`. -/
structure NewsItem where
  title : String
  url : String
  snippet : String
  source : String
  published : String
deriving DecidableEq

/-- Struct `ai.MarketContext`: the opaque string-keyed map is modelled by
the instrument list the main.go market fetcher starts it from (the
per-candle details are never inspected by the embedded claims). -/
structure MarketCtx where
  instrumentsInfo : List String
deriving DecidableEq

/-- Struct `ai.TradingContext` (assembly timestamp and historical notes kept
abstract as a plain string). -/
structure TradingCtx where
  marketData : MarketCtx
  newsAnalysis : List NewsItem
  historicalNotes : String
deriving DecidableEq

/-- Struct `ai.Recommendation` as produced by the Claude client (before the
handler's enrichment); `TimeToLive` is never set and not modelled. -/
structure DraftRec where
  id : String
  instrument : String
  direction : String
  units : ℤ
  confidence : ℚ
  rationale : String
  stopLoss : Option ℚ
  takeProfit : Option ℚ
  marketData : MarketCtx
  newsContext : List NewsItem
deriving DecidableEq

/-- The rationale text of the no-credential fallback draft
(claude.go 40-57). -/
def fallbackRationale : String :=
  "Fallback heuristic recommendation (no ANTHROPIC_API_KEY)"

/-- Method `claudeClientImpl.GenerateRecommendation` (claude.go 38-90): with no
`ANTHROPIC_API_KEY` it returns the deterministic heuristic draft (first
requested instrument or `EUR_USD`, BUY, 100 units, confidence 0.5) and a
nil error; with a key the placeholder path likewise returns a simulated
draft and a nil error.  The simulated rationale embeds the serialized
request payload; its exact text is irrelevant to the claims and is
abbreviated. -/
def claudeGenerateRecommendation (apiKey : Option String) (ctx : TradingCtx)
    (instruments : List String) : Except String DraftRec :=
  match apiKey with
  | none =>
    .ok { id := "fallback", instrument := instruments.headD "EUR_USD",
          direction := "BUY", units := 100, confidence := 1 / 2,
          rationale := fallbackRationale, stopLoss := none, takeProfit := none,
          marketData := ctx.marketData, newsContext := ctx.newsAnalysis }
  | some _ =>
    .ok { id := "simulated", instrument := instruments.headD "EUR_USD",
          direction := "BUY", units := 100, confidence := 7 / 10,
          rationale := "Simulated Claude call", stopLoss := none,
          takeProfit := none, marketData := ctx.marketData,
          newsContext := ctx.newsAnalysis }

/-- The external calls issued during generation. -/
inductive ExtCall where
  | market : ExtCall
  | news : ExtCall
  | historical : ExtCall
  | model : ExtCall
deriving DecidableEq

/-- Failure outcomes of the generation pipeline.  `inputError` is the
up-front rejection of a malformed request that the specification
describes; `newsEmptyInstrumentsPanic` is the runtime index-out-of-range
failure of `instruments[0]` in the main.go news fetcher on an empty
instrument list (recovered by the framework as a 500). -/
inductive GenError where
  | inputError : GenError
  | newsEmptyInstrumentsPanic : GenError
  | newsFetchFailed : String → GenError
  | modelFailed : String → GenError
deriving DecidableEq

/-- The main.go market fetcher closure: it builds a context from the
instrument list, skips per-instrument candle errors, and always returns a
nil error. -/
def gatherMarketData (instruments : List String) : MarketCtx :=
  { instrumentsInfo := instruments }

/-- The main.go news fetcher closure: it reads `instruments[0]` before
anything else — an out-of-range access on an empty list — and otherwise
forwards the Brave search outcome (`braveOutcome` oracle). -/
def gatherNewsData (braveOutcome : Except String (List NewsItem))
    (instruments : List String) : Except GenError (List NewsItem) :=
  match instruments with
  | [] => .error .newsEmptyInstrumentsPanic
  | _ :: _ =>
    match braveOutcome with
    | .error m => .error (.newsFetchFailed m)
    | .ok items => .ok items

/-- Method `serviceImpl.GenerateRecommendation` (impl.go 17-31) with the main.go
fetchers: market, then news, then historical (always `"pending"`), then
the model call; the first failing step aborts.  The first component
records which external capabilities were invoked, in order. -/
def serviceGenerateRecommendation (braveOutcome : Except String (List NewsItem))
    (apiKey : Option String) (instruments : List String) :
    List ExtCall × Except GenError DraftRec :=
  let market := gatherMarketData instruments
  match gatherNewsData braveOutcome instruments with
  | .error e => ([.market, .news], .error e)
  | .ok news =>
    let ctx : TradingCtx :=
      { marketData := market, newsAnalysis := news, historicalNotes := "pending" }
    match claudeGenerateRecommendation apiKey ctx instruments with
    | .error m => ([.market, .news, .historical, .model], .error (.modelFailed m))
    | .ok d => ([.market, .news, .historical, .model], .ok d)

/-- Handler `Server.aiGenerateRecommendation` up to the service call
(server.go 400-415): after JSON binding (an empty instrument list is
well-formed JSON and binds successfully) the handler performs no
validation of the instrument list and delegates directly to the service.
-/
def aiRecommendHandler (instruments : List String)
    (braveOutcome : Except String (List NewsItem)) (apiKey : Option String) :
    List ExtCall × Except GenError DraftRec :=
  serviceGenerateRecommendation braveOutcome apiKey instruments

/-! ## Concrete inputs used by the per-claim evaluations -/

/-- A pending legacy recommendation used for the C1 evaluation. -/
def recC1 : LegacyRec :=
  { id := "11111111-1111-1111-1111-111111111111", instrument := "EUR_USD",
    direction := "BUY", units := 100, rationale := some "momentum",
    confidenceScore := none, status := "PENDING", tradeID := none,
    createdAt := 0, executedAt := none, deletedAt := none }

/-- Server state holding only `recC1`. -/
def stC1 : ServerState :=
  { db := { recommendations := [recC1], aiRecs := [], trades := [],
            audits := [] }, mem := [] }

/-- The uuid generated for the trade row in the C1 evaluation. -/
def genC1 : String := "22222222-2222-2222-2222-222222222222"

/-- A pending legacy recommendation used for the C4 witness. -/
def recC4 : LegacyRec :=
  { id := "44444444-4444-4444-4444-444444444444", instrument := "EUR_USD",
    direction := "SELL", units := 50, rationale := none,
    confidenceScore := none, status := "PENDING", tradeID := none,
    createdAt := 0, executedAt := none, deletedAt := none }

/-- Server state holding only `recC4`. -/
def stC4 : ServerState :=
  { db := { recommendations := [recC4], aiRecs := [], trades := [],
            audits := [] }, mem := [] }

/-- An entry of the in-memory fallback map used for the C5
counterexample: its id is in neither database store. -/
def memC5 : MemRec :=
  { id := "mem-1", instrument := "EUR_USD", direction := "BUY", units := 5,
    rationale := "", createdAt := 0 }

/-- Server state with empty database stores and `memC5` in the in-memory
map. -/
def stC5 : ServerState :=
  { db := { recommendations := [], aiRecs := [], trades := [], audits := [] },
    mem := [memC5] }

/-- The sizing inputs of the spec's worked example: no explicit units,
risk fraction 0.01, stop distance 25 pips, account equity 10000. -/
def sC2 : SizingInputs :=
  { reqUnits := 0, riskPercent := 1 / 100, stopLossPips := 25,
    recStopLoss := none, instrument := "EUR_USD", priceMid := none,
    nav := some 10000, draftUnits := 100 }

/-- An already-executed, soft-deleted legacy row used by the C10 witness.
-/
def recC10 : LegacyRec :=
  { id := "aaaaaaaa-aaaa-4aaa-8aaa-aaaaaaaaaaaa", instrument := "EUR_USD",
    direction := "BUY", units := 10, rationale := none,
    confidenceScore := none, status := "EXECUTED",
    tradeID := some "bbbbbbbb-bbbb-4bbb-8bbb-bbbbbbbbbbbb", createdAt := 1,
    executedAt := some 2, deletedAt := some 3 }

/-- An already-executed AI row with the same id, used by the C10 witness.
-/
def aiRecC10 : AIRec :=
  { id := "aaaaaaaa-aaaa-4aaa-8aaa-aaaaaaaaaaaa", instrument := "EUR_USD",
    direction := "SELL", units := 7, confidence := 1 / 2, rationale := "r",
    stopLoss := none, takeProfit := none, status := "EXECUTED",
    executedTradeID := none, createdAt := 1, updatedAt := 4 }

/-- The trade row referenced by the C10 witness update. -/
def tradeC10 : TradeRow :=
  { id := "cccccccc-cccc-4ccc-8ccc-cccccccccccc", instrument := "EUR_USD",
    direction := "BUY", units := 10, entryPrice := none, status := "OPEN",
    oandaTradeID := none }

/-- Database state for the C10 witness. -/
def dbC10 : DBState :=
  { recommendations := [recC10], aiRecs := [aiRecC10], trades := [tradeC10],
    audits := [] }

/-! ## Helper lemmas -/

lemma goRound_one : goRound 1 = 1 := by norm_num [goRound]

lemma goRound_le_one_of_lt_one {x : ℚ} (h : x < 1) : goRound x ≤ 1 := by
  unfold goRound
  by_cases hx : 0 ≤ x
  · rw [if_pos hx]
    have h2 : ⌊x + 1 / 2⌋ < 2 := Int.floor_lt.mpr (by push_cast; linarith)
    omega
  · rw [if_neg hx]
    push_neg at hx
    have h2 : ⌈x - 1 / 2⌉ ≤ 0 := Int.ceil_le.mpr (by push_cast; linarith)
    omega

lemma goRound_ge_one_of_ge_one {x : ℚ} (h : 1 ≤ x) : 1 ≤ goRound x := by
  unfold goRound
  rw [if_pos (by linarith : (0 : ℚ) ≤ x)]
  exact Int.le_floor.mpr (by push_cast; linarith)

lemma goRound_clamp (x : ℚ) :
    goRound (if x < 1 then 1 else x) = max 1 (goRound x) := by
  by_cases h : x < 1
  · rw [if_pos h, goRound_one]
    exact (max_eq_left (goRound_le_one_of_lt_one h)).symm
  · rw [if_neg h]
    exact (max_eq_right (goRound_ge_one_of_ge_one (not_lt.mp h))).symm

lemma isUUIDLike_ne_empty {s : String} (h : isUUIDLike s = true) : s ≠ "" := by
  intro he
  subst he
  exact absurd h (by decide)

lemma mem_insertDescBy (key : α → ℕ) (r x : α) (l : List α) :
    x ∈ insertDescBy key r l ↔ x = r ∨ x ∈ l := by
  induction l with
  | nil => simp [insertDescBy]
  | cons y ys ih =>
    simp only [insertDescBy]
    by_cases h : key y < key r
    · simp [h]
    · simp only [if_neg h, List.mem_cons, ih]
      tauto

lemma mem_sortDescBy (key : α → ℕ) (l : List α) (x : α) :
    x ∈ sortDescBy key l ↔ x ∈ l := by
  induction l with
  | nil => simp [sortDescBy]
  | cons y ys ih =>
    simp only [sortDescBy, mem_insertDescBy, List.mem_cons, ih]

lemma find?_ListRecommendations_eq_none {db : DBState} {p : LegacyRec → Bool}
    (h : db.recommendations.find? p = none) :
    (ListRecommendations db).find? p = none := by
  rw [List.find?_eq_none] at h ⊢
  intro x hx
  apply h
  have h1 : x ∈ sortDescBy (fun r => r.createdAt)
      (db.recommendations.filter fun r => r.deletedAt == none) :=
    List.take_subset _ _ hx
  exact List.mem_of_mem_filter ((mem_sortDescBy _ _ _).mp h1)

lemma find?_ListAIRecommendations_eq_none {db : DBState} {p : AIRec → Bool}
    (h : db.aiRecs.find? p = none) :
    (ListAIRecommendations db).find? p = none := by
  rw [List.find?_eq_none] at h ⊢
  intro x hx
  apply h
  have h1 : x ∈ sortDescBy (fun r => r.createdAt) db.aiRecs :=
    List.take_subset _ _ hx
  exact (mem_sortDescBy _ _ _).mp h1

lemma suffix_JPY_contains {s : String} (h : "_JPY".toList <:+ s.toList) :
    containsJPY s = true := by
  obtain ⟨u, hu⟩ := h
  have hinf : "JPY".toList <:+: s.toList := by
    refine ⟨u ++ ['_'], [], ?_⟩
    rw [← hu]
    simp
  simpa [containsJPY] using hinf

/-! ## C3: stop-loss / take-profit bracket computation -/

/-- C3: for a positive current price, a BUY recommendation gets stop-loss
`price − d·pip` and take-profit `price + 2·d·pip`, a SELL gets the signs
inverted; in particular a BUY at 1.1000 with d = 20 and pip = 0.0001
yields 1.0980 / 1.1040, and a SELL at 150.00 with d = 10 and pip = 0.01
yields 150.10 / 149.80. -/
theorem bracket_prices_C3 (mid d pip : ℚ) (hmid : 0 < mid) :
    computeSLTP "BUY" mid d pip = (mid - d * pip, mid + 2 * d * pip) ∧
    computeSLTP "SELL" mid d pip = (mid + d * pip, mid - 2 * d * pip) ∧
    (∀ instrument direction riskLevel : String,
      enrichStopTakeProfit instrument direction riskLevel mid =
        some (computeSLTP direction mid (distPipsFor riskLevel)
          (pipFor instrument))) ∧
    enrichStopTakeProfit "EUR_USD" "BUY" "medium" (11 / 10) =
      some (1098 / 1000, 1104 / 1000) ∧
    enrichStopTakeProfit "USD_JPY" "SELL" "high" 150 =
      some (1501 / 10, 1498 / 10) := by
  have hbuy : goUpper "BUY" = "BUY" := by decide
  have hsell : goUpper "SELL" = "SELL" := by decide
  have hpipEU : pipFor "EUR_USD" = 1 / 10000 := by
    rw [pipFor, (show containsJPY "EUR_USD" = false by decide)]
    norm_num
  have hpipUJ : pipFor "USD_JPY" = 1 / 100 := by
    rw [pipFor, (show containsJPY "USD_JPY" = true by decide)]
    norm_num
  have hdmed : distPipsFor "medium" = 20 := by
    rw [distPipsFor, (show goLower "medium" = "medium" by decide)]
    rw [if_neg (by decide : ¬ ("medium" : String) = "low"),
        if_neg (by decide : ¬ ("medium" : String) = "high")]
  have hdhigh : distPipsFor "high" = 10 := by
    rw [distPipsFor, (show goLower "high" = "high" by decide)]
    rw [if_neg (by decide : ¬ ("high" : String) = "low"), if_pos rfl]
  refine ⟨?_, ?_, ?_, ?_, ?_⟩
  · simp [computeSLTP, hbuy]
  · simp [computeSLTP, hsell]
  · intro instrument direction riskLevel
    simp [enrichStopTakeProfit, hmid]
  · rw [enrichStopTakeProfit, if_pos (by norm_num : (0 : ℚ) < 11 / 10)]
    rw [hdmed, hpipEU]
    simp [computeSLTP, hbuy]
    norm_num
  · rw [enrichStopTakeProfit, if_pos (by norm_num : (0 : ℚ) < 150)]
    rw [hdhigh, hpipUJ]
    simp [computeSLTP, hsell]
    norm_num

/-- Witness for C3 at a concrete positive price. -/
theorem bracket_prices_C3_witness :
    computeSLTP "BUY" 1 20 (1 / 10000) = (1 - 20 * (1 / 10000), 1 + 2 * 20 * (1 / 10000)) :=
  (bracket_prices_C3 1 20 (1 / 10000) (by norm_num)).1

/-! ## C2: risk-based position sizing -/

/-- C2 (amended): with no explicit unit count, a positive risk fraction,
a positive requested stop distance in pips, and a successful account
fetch, the unit size is `round(equity × riskFraction / (distancePips ×
pipValuePerUnit))` floored at 1 — never below 1. -/
theorem risk_sizing_formula_C2 (s : SizingInputs) (equity : ℚ)
    (hunits : s.reqUnits = 0) (hrisk : 0 < s.riskPercent)
    (hsl : 0 < s.stopLossPips) (hnav : s.nav = some equity) :
    applyPositionSizing s =
      max 1 (goRound (equity * s.riskPercent /
        (s.stopLossPips * pipValuePerUnit))) ∧
    1 ≤ applyPositionSizing s := by
  have hne : ¬ 0 < s.reqUnits := by omega
  have hres : resolveStopPips s = s.stopLossPips := by
    rw [resolveStopPips, if_pos hsl]
  have hmain : applyPositionSizing s =
      max 1 (goRound (equity * s.riskPercent /
        (s.stopLossPips * pipValuePerUnit))) := by
    rw [applyPositionSizing, if_neg hne, if_pos (Or.inl ⟨hrisk, hsl⟩)]
    simp only [hnav, hres]
    rw [if_pos hsl]
    simp only [riskUnits]
    rw [goRound_clamp]
  exact ⟨hmain, by rw [hmain]; exact le_max_left _ _⟩

/-- Witness for C2 at the spec's worked inputs. -/
theorem risk_sizing_formula_C2_witness :
    applyPositionSizing sC2 =
      max 1 (goRound (10000 * sC2.riskPercent /
        (sC2.stopLossPips * pipValuePerUnit))) :=
  (risk_sizing_formula_C2 sC2 10000 rfl (by norm_num [sC2]) (by norm_num [sC2]) rfl).1

/-- C2 counterexample: at accountEquity = 10000, riskFraction = 0.01,
distancePips = 25 the code produces 40000 units, not the 4000 the claim
states. -/
theorem risk_sizing_example_C2_counterexample :
    applyPositionSizing sC2 = 40000 ∧ applyPositionSizing sC2 ≠ 4000 := by
  have h : applyPositionSizing sC2 = 40000 := by
    norm_num [applyPositionSizing, sC2, resolveStopPips, riskUnits,
      pipValuePerUnit, goRound]
  exact ⟨h, by rw [h]; decide⟩

/-! ## C7: UUID-shaped identifier replacement on creation -/

/-- C7: a non-UUID-shaped caller-supplied id is replaced by the freshly
generated UUID in the stored AI record, a UUID-shaped one is kept, and
the stored id is always UUID-shaped. -/
theorem uuid_id_replacement_C7 (supplied fresh : String)
    (hfresh : isUUIDLike fresh = true) :
    (isUUIDLike supplied = false → storedAIRecID supplied fresh = fresh) ∧
    (isUUIDLike supplied = true → storedAIRecID supplied fresh = supplied) ∧
    isUUIDLike (storedAIRecID supplied fresh) = true := by
  by_cases h : isUUIDLike supplied
  · have hid : storedAIRecID supplied fresh = supplied := by
      rw [storedAIRecID]
      simp only [h, if_true]
      rw [if_neg (isUUIDLike_ne_empty h)]
    refine ⟨fun hbad => absurd h (by rw [hbad]; exact Bool.false_ne_true), fun _ => hid, ?_⟩
    rw [hid]
    exact h
  · have hb : isUUIDLike supplied = false := by
      cases hx : isUUIDLike supplied
      · rfl
      · exact absurd hx h
    have hid : storedAIRecID supplied fresh = fresh := by
      rw [storedAIRecID]
      simp [hb]
    refine ⟨fun _ => hid, fun hgood => absurd hgood h, ?_⟩
    rw [hid]
    exact hfresh

/-- Witness for C7: the Claude placeholder id `"simulated"` is not
UUID-shaped and is replaced by the generated UUID. -/
theorem uuid_id_replacement_C7_witness :
    storedAIRecID "simulated" "123e4567-e89b-12d3-a456-426614174000" =
      "123e4567-e89b-12d3-a456-426614174000" :=
  (uuid_id_replacement_C7 "simulated" "123e4567-e89b-12d3-a456-426614174000"
    (by decide)).1 (by decide)

/-! ## C8: pip unit rule -/

/-- C8 counterexample: the code keys the pip unit on substring
containment of `"JPY"`, not on the quote currency; on the instrument
name `"JPY_USD"` (quote currency USD) the code yields 0.01 while the
claimed quote-currency rule yields 0.0001. -/
theorem pip_quote_currency_C8_counterexample :
    pipFor "JPY_USD" = 1 / 100 ∧ pipByQuoteCurrency "JPY_USD" = 1 / 10000 ∧
    pipFor "JPY_USD" ≠ pipByQuoteCurrency "JPY_USD" := by
  have h1 : pipFor "JPY_USD" = 1 / 100 := by
    rw [pipFor, (show containsJPY "JPY_USD" = true by decide)]
    norm_num
  have h2 : pipByQuoteCurrency "JPY_USD" = 1 / 10000 := by
    have hd : decide ("_JPY".toList <:+ "JPY_USD".toList) = false := by decide
    simp [pipByQuoteCurrency, hd]
    decide
  refine ⟨h1, h2, ?_⟩
  rw [h1, h2]
  norm_num

/-- C8 (amended): the pip unit is 0.01 exactly when the instrument name
contains `"JPY"` as a substring, and 0.0001 otherwise; every name whose
quote-currency suffix is `"_JPY"` therefore gets 0.01, so the rule agrees
with the quote-currency convention on conventionally named pairs. -/
theorem pip_substring_C8 (s t : String)
    (hs : "_JPY".toList <:+ s.toList) (ht : containsJPY t = false) :
    pipFor s = 1 / 100 ∧ pipFor t = 1 / 10000 ∧
    ∀ u : String, (pipFor u = 1 / 100 ↔ containsJPY u = true) := by
  refine ⟨?_, ?_, ?_⟩
  · rw [pipFor, suffix_JPY_contains hs]
    norm_num
  · rw [pipFor, ht]
    norm_num
  · intro u
    by_cases h : containsJPY u
    · rw [pipFor, h]
      simp [h]
    · have hb : containsJPY u = false := by
        cases hx : containsJPY u
        · rfl
        · exact absurd hx h
      rw [pipFor, hb]
      simp only [Bool.false_eq_true, if_false, hb]
      constructor
      · intro habs
        exact absurd habs (by norm_num)
      · intro habs
        exact absurd habs (by norm_num)

/-- Witness for C8 on the two conventional pairs. -/
theorem pip_substring_C8_witness :
    pipFor "USD_JPY" = 1 / 100 ∧ pipFor "EUR_USD" = 1 / 10000 := by
  have h := pip_substring_C8 "USD_JPY" "EUR_USD" (by decide) (by decide)
  exact ⟨h.1, h.2.1⟩

/-! ## C9: deterministic heuristic draft without a model credential -/

/-- C9: with no model credential and a non-empty instrument list the
drafter returns the deterministic heuristic draft — confidence 0.5, the
first requested instrument, direction BUY — and never an error. -/
theorem claude_fallback_C9 (ctx : TradingCtx) (i : String) (is : List String) :
    claudeGenerateRecommendation none ctx (i :: is) =
      .ok { id := "fallback", instrument := i, direction := "BUY",
            units := 100, confidence := 1 / 2, rationale := fallbackRationale,
            stopLoss := none, takeProfit := none,
            marketData := ctx.marketData, newsContext := ctx.newsAnalysis } :=
  rfl

/-! ## C4: broker rejection leaves the state unchanged -/

/-- C4: when the broker rejects the order of a resolved recommendation,
the broker error is surfaced to the caller verbatim and the server state
— recommendation rows (hence their PENDING status), trades, audits, the
in-memory map — is returned unchanged. -/
theorem accept_broker_rejection_C4 (st : ServerState) (id : String)
    (r : MemRec) (isAI : Bool) (sl tp : Option ℚ) (e : String)
    (prices : Option (ℚ × ℚ)) (genID : String) (now : ℕ)
    (hres : resolveRecommendation st id = some (r, isAI, sl, tp)) :
    acceptRecommendation st id (.error e) prices genID now =
      (st, .error (.brokerRejected e)) := by
  simp only [acceptRecommendation, hres]

/-- Witness for C4 on a concrete pending recommendation. -/
theorem accept_broker_rejection_C4_witness :
    acceptRecommendation stC4 "44444444-4444-4444-4444-444444444444"
        (.error "ORDER_REJECTED") none "" 0 =
      (stC4, .error (.brokerRejected "ORDER_REJECTED")) :=
  accept_broker_rejection_C4 stC4 "44444444-4444-4444-4444-444444444444"
    (legacyToMem recC4) false none none "ORDER_REJECTED" none "" 0 rfl

/-! ## C5: not-found handling and resolution order -/

/-- C5 counterexample: an identifier absent from both database stores but
present in the global in-memory fallback map is resolved from that map
(the handler's third lookup), so the accept call does not return NotFound
— refuting "consults no fallback source". -/
theorem accept_memory_fallback_C5_counterexample :
    stC5.db.recommendations = [] ∧ stC5.db.aiRecs = [] ∧
    resolveRecommendation stC5 "mem-1" = some (memC5, false, none, none) ∧
    (acceptRecommendation stC5 "mem-1" (.ok "77") none
        "33333333-3333-3333-3333-333333333333" 1).2 ≠
      .error .notFound :=
  ⟨rfl, rfl, rfl, fun h => Except.noConfusion (rfl.trans h)⟩

/-- C5 (amended): an identifier present in none of the legacy store, the
AI store, and the in-memory fallback map yields NotFound with the state
unchanged (no writes); resolution checks the legacy rows as listed by the
code (non-soft-deleted, 200-newest window) first, then the listed AI rows
(200-newest window), then the in-memory map, and the first match wins. -/
theorem accept_notfound_C5 (st : ServerState) (id : String)
    (broker : Except String String) (prices : Option (ℚ × ℚ))
    (genID : String) (now : ℕ)
    (hleg : st.db.recommendations.find? (fun r => r.id == id) = none)
    (hai : st.db.aiRecs.find? (fun r => r.id == id) = none)
    (hmem : st.mem.find? (fun m => m.id == id) = none) :
    acceptRecommendation st id broker prices genID now =
      (st, .error .notFound) ∧
    (∀ (st2 : ServerState) (id2 : String) (item : LegacyRec),
      (ListRecommendations st2.db).find? (fun r => r.id == id2) = some item →
      resolveRecommendation st2 id2 =
        some (legacyToMem item, false, none, none)) ∧
    (∀ (st2 : ServerState) (id2 : String) (item : AIRec),
      (ListRecommendations st2.db).find? (fun r => r.id == id2) = none →
      (ListAIRecommendations st2.db).find? (fun r => r.id == id2) =
        some item →
      resolveRecommendation st2 id2 =
        some (aiToMem item, true, item.stopLoss, item.takeProfit)) := by
  refine ⟨?_, ?_, ?_⟩
  · have hres : resolveRecommendation st id = none := by
      unfold resolveRecommendation
      rw [find?_ListRecommendations_eq_none hleg,
          find?_ListAIRecommendations_eq_none hai, hmem]
    simp only [acceptRecommendation, hres]
  · intro st2 id2 item hfind
    unfold resolveRecommendation
    rw [hfind]
  · intro st2 id2 item hnone hfind
    unfold resolveRecommendation
    rw [hnone, hfind]

/-- Witness for C5 on the empty state. -/
theorem accept_notfound_C5_witness :
    acceptRecommendation
        { db := { recommendations := [], aiRecs := [], trades := [],
                  audits := [] }, mem := [] }
        "no-such-id" (.ok "1") none "" 0 =
      ({ db := { recommendations := [], aiRecs := [], trades := [],
                 audits := [] }, mem := [] }, .error .notFound) :=
  (accept_notfound_C5
    { db := { recommendations := [], aiRecs := [], trades := [], audits := [] },
      mem := [] }
    "no-such-id" (.ok "1") none "" 0 rfl rfl rfl).1

/-! ## C6: empty instrument list is not rejected up front -/

/-- C6: on an empty instrument list the handler performs no input
validation — the market fetch capability is invoked (first element of the
call trace) and the pipeline then fails with the news fetcher's
index-out-of-range access, not with an input error. -/
theorem empty_instruments_no_input_error_C6 :
    aiRecommendHandler [] (.ok []) none =
      ([ExtCall.market, ExtCall.news],
        .error GenError.newsEmptyInstrumentsPanic) ∧
    (aiRecommendHandler [] (.ok []) none).2 ≠ .error GenError.inputError := by
  refine ⟨rfl, fun h => ?_⟩
  have h2 : GenError.newsEmptyInstrumentsPanic = GenError.inputError :=
    Except.error.inj (rfl.trans h)
  exact GenError.noConfusion h2

/-! ## C10: frame and unconditional application of mark-executed -/

lemma audit_recommendations (db : DBState) (e i a : String) :
    (audit db e i a).recommendations = db.recommendations := by
  unfold audit
  split <;> rfl

lemma audit_aiRecs (db : DBState) (e i a : String) :
    (audit db e i a).aiRecs = db.aiRecs := by
  unfold audit
  split <;> rfl

lemma audit_trades (db : DBState) (e i a : String) :
    (audit db e i a).trades = db.trades := by
  unfold audit
  split <;> rfl

/-- C10: given a trade reference the schema accepts (UUID-shaped and
present in `trades`), the mark-executed update on either recommendation
form rewrites exactly the matching rows — setting only the status, the
trade back-reference, and the executed/updated timestamp, all other
fields copied — with no precondition on the row's current status or
soft-delete marker, and leaves every other table unchanged. -/
theorem mark_executed_frame_C10 (db : DBState) (id tid : String) (now : ℕ)
    (hcast : uuidCastOK tid = true)
    (hfk : db.trades.any (fun t => t.id == tid) = true) :
    (MarkRecommendationExecuted db id tid now).1.recommendations =
      db.recommendations.map (fun r =>
        if r.id = id then
          { r with status := "EXECUTED", tradeID := some tid,
                   executedAt := some now }
        else r) ∧
    (MarkRecommendationExecuted db id tid now).1.aiRecs = db.aiRecs ∧
    (MarkRecommendationExecuted db id tid now).1.trades = db.trades ∧
    (MarkAIRecommendationExecuted db id tid now).1.aiRecs =
      db.aiRecs.map (fun r =>
        if r.id = id then
          { r with status := "EXECUTED", executedTradeID := some tid,
                   updatedAt := now }
        else r) ∧
    (MarkAIRecommendationExecuted db id tid now).1.recommendations =
      db.recommendations ∧
    (MarkAIRecommendationExecuted db id tid now).1.trades = db.trades := by
  have hnot : (!uuidCastOK tid) = false := by
    rw [hcast]
    rfl
  have hfk2 : ∀ b : Bool, (b && !db.trades.any (fun t => t.id == tid)) = false := by
    intro b
    rw [hfk]
    exact Bool.and_false b
  refine ⟨?_, ?_, ?_, ?_, ?_, ?_⟩ <;>
    simp only [MarkRecommendationExecuted, MarkAIRecommendationExecuted,
      hnot, hfk2, Bool.false_eq_true, if_false, audit_recommendations,
      audit_aiRecs, audit_trades]

/-- Witness for C10: the update overwrites a row that is already
EXECUTED and soft-deleted, touching only the three claimed fields, and
the AI form behaves the same on an already-EXECUTED row. -/
theorem mark_executed_frame_C10_witness :
    (MarkRecommendationExecuted dbC10 "aaaaaaaa-aaaa-4aaa-8aaa-aaaaaaaaaaaa"
        "cccccccc-cccc-4ccc-8ccc-cccccccccccc" 9).1.recommendations =
      [{ recC10 with status := "EXECUTED",
                     tradeID := some "cccccccc-cccc-4ccc-8ccc-cccccccccccc",
                     executedAt := some 9 }] ∧
    (MarkAIRecommendationExecuted dbC10 "aaaaaaaa-aaaa-4aaa-8aaa-aaaaaaaaaaaa"
        "cccccccc-cccc-4ccc-8ccc-cccccccccccc" 9).1.aiRecs =
      [{ aiRecC10 with status := "EXECUTED",
                       executedTradeID :=
                         some "cccccccc-cccc-4ccc-8ccc-cccccccccccc",
                       updatedAt := 9 }] := by
  have h := mark_executed_frame_C10 dbC10
    "aaaaaaaa-aaaa-4aaa-8aaa-aaaaaaaaaaaa"
    "cccccccc-cccc-4ccc-8ccc-cccccccccccc" 9 (by decide) (by decide)
  refine ⟨?_, ?_⟩
  · rw [h.1]
    rfl
  · rw [h.2.2.2.1]
    rfl

/-! ## C1: what a successful accept actually persists -/

/-- C1: evaluating a successful accept of the pending legacy
recommendation `recC1` (broker accepts the order and assigns transaction
id `"6410"`, bid/ask 1 and 2 are available, the trade INSERT draws
`genC1`): exactly one trade row is created, with entry price the mid of
bid/ask; but the recommendation row is returned unchanged — still
PENDING, no trade reference — because the executed-update binds the
non-UUID transaction id `"6410"` to the UUID column `trade_id` and fails
(its error is discarded), so no EXECUTE audit row is written either; and
the trade CREATE audit binds the empty pre-insert trade id to the UUID
column `entity_id` and also fails, so the audit log stays empty. -/
theorem accept_success_audit_gap_C1 :
    acceptRecommendation stC1 "11111111-1111-1111-1111-111111111111"
        (.ok "6410") (some (1, 2)) genC1 5 =
      ({ db := { recommendations := [recC1], aiRecs := [],
                 trades := [{ id := genC1, instrument := "EUR_USD",
                              direction := "BUY", units := 100,
                              entryPrice := some ((1 + 2) / 2),
                              status := "OPEN",
                              oandaTradeID := some "6410" }],
                 audits := [] }, mem := [] },
        .ok (legacyToMem recC1, "6410")) ∧
    ((1 : ℚ) + 2) / 2 = 3 / 2 ∧
    recC1.status = "PENDING" ∧ recC1.tradeID = none :=
  ⟨rfl, by norm_num, rfl, rfl⟩
